import Mathlib

/-!
Verification of the Performance Analysis & Study-Plan Generation engine of
the `useglide/glide` repository (`app/services/canvas_service.py`).

The embedding below is a shallow model of `CanvasService.analyze_course_performance`,
`CanvasService.generate_study_plan` and the percentile computation in
`CanvasService.analyze_assignment_performance`.  Network fetches are modelled
by an environment record holding, for each of the named Canvas endpoints, the
outcome that endpoint produces during the analysed call (`Except String α`:
an exception with its message, or the decoded payload).  Repeated calls to the
same endpoint within one operation (the study plan re-fetches assignments and
assignment groups) are modelled as returning the same outcome.

Numeric scores and weights are rationals (the Python floats carry exact
decimal data in every behaviour the claims mention); timestamps are integers
(seconds), standing for the parsed ISO `due_at` strings — `datetime`
subtraction followed by `.days` is integer floor division by 86400, which is
`Int.fdiv` here.  The accumulated `message` string, which the source builds by
appending `". <sentence>"` chunks, is modelled as the list of appended chunks.
-/

namespace Glide

set_option maxRecDepth 40000

/-- Course payload as used by the source: only `course.get("name", "Unknown Course")`
is read. -/
structure CourseInfo where
  name : Option String
deriving DecidableEq, Repr

/-- One entry of `course_grades["enrollments"]`.  The outer `Option` models
presence of the `"current_grade"` key, the inner one a null value. -/
structure Enrollment where
  current_grade : Option (Option String)
deriving DecidableEq, Repr

/-- Payload of `get_course_grades`: only the optional `"enrollments"` list is read. -/
structure GradesInfo where
  enrollments : Option (List Enrollment)
deriving DecidableEq, Repr

/-- The `submission["assignment"]` sub-object: only `assignment_group_id` is read. -/
structure SubAssignmentInfo where
  assignment_group_id : Option Int
deriving DecidableEq, Repr

/-- A submission record as used by the source: `grade` (string), `score`
(numeric) and the included `assignment` object. -/
structure Submission where
  grade : Option String
  score : Option ℚ
  assignment : Option SubAssignmentInfo
deriving DecidableEq, Repr

/-- An assignment record: `id` and `name` are required keys in the source
(`assignment["id"]`), the rest are read with `.get`.  `due_at` is the parsed
timestamp in seconds. -/
structure Assignment where
  id : Int
  name : String
  due_at : Option Int
  points_possible : Option ℚ
  assignment_group_id : Option Int
deriving DecidableEq, Repr

/-- An assignment-group record: `id` and `name` are required keys,
`group_weight` is read with `.get("group_weight", 0)`. -/
structure AssignmentGroup where
  id : Int
  name : String
  group_weight : Option ℚ
deriving DecidableEq, Repr

/-- Outcomes of the Canvas endpoints during one analysed call.  `now` is the
wall clock (`datetime.datetime.now()`, in seconds); the source re-reads the
clock at each use, which the model collapses to a single instant for the call. -/
structure Env where
  course : Except String CourseInfo
  grades : Except String GradesInfo
  assignments : Except String (List Assignment)
  submissions : Except String (List Submission)
  groups : Except String (List AssignmentGroup)
  now : Int

/-! ## Statistics utilities (`statistics.mean/median/stdev` as used) -/

/-- Arithmetic mean (`statistics.mean`); the source only calls it on non-empty lists. -/
def mean (xs : List ℚ) : ℚ := xs.sum / (xs.length : ℚ)

/-- Sorted copy of a score list, ascending. -/
def sortScores (xs : List ℚ) : List ℚ := List.insertionSort (· ≤ ·) xs

/-- `statistics.median`: middle element of the sorted list, or the mean of the
two middle elements for even length. -/
def medianQ (xs : List ℚ) : ℚ :=
  let s := sortScores xs
  let n := s.length
  if n % 2 = 1 then s.getD (n / 2) 0
  else (s.getD (n / 2 - 1) 0 + s.getD (n / 2) 0) / 2

/-- Radicand of `statistics.stdev` (Bessel-corrected sample variance).  The
source stores the square root of this quantity; no verified claim uses the
numeric value of the standard deviation, only its presence, so the model
carries the (rational) radicand instead of the irrational root. -/
def sampleVariance (xs : List ℚ) : ℚ :=
  (xs.map fun x => (x - mean xs) ^ 2).sum / ((xs.length : ℚ) - 1)

/-! ## analyze_course_performance -/

/-- The source filter `s.get("grade") and s.get("grade") != ""`: for the string
`grade` field, Python truthiness plus the explicit test amount to "present and
non-empty". -/
def gradeTruthy (s : Submission) : Bool :=
  match s.grade with
  | some g => g ≠ ""
  | none => false

/-- `graded_submissions`: submissions whose `grade` field is truthy. -/
def gradedSubmissions (subs : List Submission) : List Submission :=
  subs.filter gradeTruthy

/-- `numeric_grades`: scores of the graded submissions whose `score` is non-null
(`float(...)` on an already numeric score is the identity here). -/
def numericGrades (subs : List Submission) : List ℚ :=
  (gradedSubmissions subs).filterMap (fun s => s.score)

/-- `submission.get("assignment", {}).get("assignment_group_id")`. -/
def subGroupId (s : Submission) : Option Int :=
  s.assignment.bind (fun a => a.assignment_group_id)

/-- Python `if group_id:` — `None` and `0` are falsy. -/
def truthyId (g : Option Int) : Option Int :=
  match g with
  | some i => if i = 0 then none else some i
  | none => none

/-- The graded submissions bucketed under group id `gid` by `submissions_by_group`
(only truthy group ids are bucketed). -/
def groupSubs (graded : List Submission) (gid : Int) : List Submission :=
  graded.filter (fun s => truthyId (subGroupId s) == some gid)

/-- The numeric scores of the bucketed submissions of a group. -/
def groupScores (graded : List Submission) (gid : Int) : List ℚ :=
  (groupSubs graded gid).filterMap (fun s => s.score)

/-- Value of one `group_stats` entry. -/
structure GroupStat where
  average_score : Option ℚ
  submissions_count : ℕ
  weight : ℚ
deriving DecidableEq, Repr

/-- Python dict assignment `d[k] = v`: replace the value in place if the key
exists (keeping its position, dicts preserve insertion order), else append. -/
def upsert (k : String) (v : GroupStat) :
    List (String × GroupStat) → List (String × GroupStat)
  | [] => [(k, v)]
  | p :: rest => if p.1 = k then (k, v) :: rest else p :: upsert k v rest

/-- The stat stored for a group whose bucket has numeric scores. -/
def statOf (graded : List Submission) (g : AssignmentGroup) : GroupStat :=
  { average_score := some (mean (groupScores graded g.id)),
    submissions_count := (groupSubs graded g.id).length,
    weight := g.group_weight.getD 0 }

/-- The `group_stats` dict: iterate the fetched groups in order; a group gets
an entry exactly when its bucket of graded submissions has at least one
numeric score (`if group_id in submissions_by_group` and `if group_scores`). -/
def groupStatsAux (graded : List Submission) :
    List AssignmentGroup → List (String × GroupStat) → List (String × GroupStat)
  | [], acc => acc
  | g :: gs, acc =>
    if groupScores graded g.id = [] then groupStatsAux graded gs acc
    else groupStatsAux graded gs (upsert g.name (statOf graded g) acc)

def groupStats (graded : List Submission) (gs : List AssignmentGroup) :
    List (String × GroupStat) :=
  groupStatsAux graded gs []

/-- The strengths/weaknesses loop: each `group_stats` entry whose stored
average is non-null goes to `strengths` when that average strictly exceeds the
aggregate average, else to `weaknesses`. -/
def classifyGroups (avg : ℚ) : List (String × GroupStat) → List String × List String
  | [] => ([], [])
  | (n, st) :: rest =>
    let sw := classifyGroups avg rest
    match st.average_score with
    | some a => if avg < a then (n :: sw.1, sw.2) else (sw.1, n :: sw.2)
    | none => sw

/-- The dict returned by `analyze_course_performance` when the course fetch
succeeded.  `Option` fields model presence of the corresponding dict key;
`message` is the list of appended narrative chunks. -/
structure PerfReport where
  course_id : Int
  course_name : String
  current_grade : Option String
  total_assignments : ℕ
  graded_assignments : ℕ
  assignments : Option (List Assignment)
  average_score : Option ℚ
  median_score : Option ℚ
  score_std_dev : Option ℚ
  group_statistics : Option (List (String × GroupStat))
  strengths : Option (List String)
  weaknesses : Option (List String)
  upcoming_assignments_count : Option ℕ
  message : List String
deriving DecidableEq, Repr

/-- Result of `analyze_course_performance`: a report, or the error dict
`{"course_id": ..., "message": ..., "error": True}` produced when the
load-bearing course fetch raises. -/
inductive AnalyzeResult where
  | ok (r : PerfReport)
  | err (course_id : Int) (message : String)
deriving DecidableEq, Repr

/-- Projection used to state concrete facts about a returned report. -/
def AnalyzeResult.getReport : AnalyzeResult → Option PerfReport
  | .ok r => some r
  | .err _ _ => none

/-- Which of the four secondary fetches were actually attempted (i.e. whose
endpoint call was reached) during one `analyze_course_performance` run. -/
structure FetchTrace where
  gradesAttempted : Bool
  assignmentsAttempted : Bool
  submissionsAttempted : Bool
  groupsAttempted : Bool
deriving DecidableEq, Repr

/-- The `current_grade` extraction loop: first enrollment carrying the
`"current_grade"` key wins (its value may itself be null). -/
def firstCurrentGrade (gi : GradesInfo) : Option String :=
  match gi.enrollments with
  | some es =>
    match es.find? (fun en => en.current_grade.isSome) with
    | some en => en.current_grade.getD none
    | none => none
  | none => none

/-- Source lines 264-275: the course-grades fetch. -/
def stepGrades (g : Except String GradesInfo) (r : PerfReport) : PerfReport :=
  match g with
  | .ok gi =>
    { r with current_grade := firstCurrentGrade gi,
             message := r.message ++ ["Grade information retrieved successfully"] }
  | .error e =>
    { r with message := r.message ++ ["Could not retrieve grade information: " ++ e] }

/-- Source lines 277-285: the assignment-list fetch. -/
def stepAssignments (a : Except String (List Assignment)) (r : PerfReport) : PerfReport :=
  match a with
  | .ok asgs =>
    { r with total_assignments := asgs.length,
             assignments := some asgs,
             message := r.message ++ ["Assignment information retrieved successfully"] }
  | .error e =>
    { r with message := r.message ++ ["Could not retrieve assignment information: " ++ e] }

/-- Source lines 312-367: the assignment-group fetch nested in the submissions
branch (only reached when there is at least one graded submission). -/
def stepGroups (gr : Except String (List AssignmentGroup)) (graded : List Submission)
    (numeric : List ℚ) (r : PerfReport) : PerfReport :=
  match gr with
  | .ok gs =>
    let stats := groupStats graded gs
    let sw := if numeric = [] then ([], []) else classifyGroups (mean numeric) stats
    { r with group_statistics := some stats,
             strengths := some sw.1,
             weaknesses := some sw.2,
             message := r.message ++ ["Detailed performance analysis completed"] }
  | .error e =>
    { r with message := r.message ++ ["Could not complete detailed analysis: " ++ e] }

/-- Source lines 375-385: when the submissions fetch failed, fall back to
counting upcoming assignments (strictly future `due_at`) among the fetched
assignments, if those were obtained. -/
def stepUpcomingCount (now : Int) (r : PerfReport) : PerfReport :=
  match r.assignments with
  | some asgs =>
    let upc := asgs.filter (fun a =>
      match a.due_at with
      | some d => now < d
      | none => false)
    let r1 := { r with upcoming_assignments_count := some upc.length }
    if upc.length = 0 then r1
    else { r1 with message := r1.message ++
      ["Found " ++ toString upc.length ++ " upcoming assignments"] }
  | none => r

/-- Source lines 287-385: the submissions fetch with its nested analysis.
Returns the updated report and whether the assignment-groups endpoint was
called. -/
def stepSubmissions (s : Except String (List Submission))
    (gr : Except String (List AssignmentGroup)) (now : Int) (r : PerfReport) :
    PerfReport × Bool :=
  match s with
  | .ok subs =>
    let graded := gradedSubmissions subs
    let r1 := { r with graded_assignments := graded.length,
                       message := r.message ++ ["Submission information retrieved successfully"] }
    if graded = [] then
      ({ r1 with message := r1.message ++ ["No graded assignments found for detailed analysis"] },
       false)
    else
      let numeric := numericGrades subs
      let r2 :=
        if numeric = [] then r1
        else { r1 with
          average_score := some (mean numeric),
          median_score := some (medianQ numeric),
          score_std_dev := if 1 < numeric.length then some (sampleVariance numeric) else none }
      (stepGroups gr graded numeric r2, true)
  | .error e =>
    let r1 := { r with message := r.message ++ ["Could not retrieve submission information: " ++ e] }
    (stepUpcomingCount now r1, false)

/-- The report as initialised right after the course fetch (source lines 254-262). -/
def initReport (course_id : Int) (course : CourseInfo) : PerfReport :=
  { course_id := course_id,
    course_name := course.name.getD "Unknown Course",
    current_grade := none,
    total_assignments := 0,
    graded_assignments := 0,
    assignments := none,
    average_score := none,
    median_score := none,
    score_std_dev := none,
    group_statistics := none,
    strengths := none,
    weaknesses := none,
    upcoming_assignments_count := none,
    message := ["Basic course information retrieved successfully"] }

/-- `analyze_course_performance` together with the trace of attempted secondary
fetches. -/
def analyzeCoursePerformanceT (course_id : Int) (env : Env) : AnalyzeResult × FetchTrace :=
  match env.course with
  | .error e =>
    (.err course_id ("Error analyzing course performance: " ++ e),
     ⟨false, false, false, false⟩)
  | .ok course =>
    let r0 := initReport course_id course
    let r1 := stepGrades env.grades r0
    let r2 := stepAssignments env.assignments r1
    let rg := stepSubmissions env.submissions env.groups env.now r2
    (.ok rg.1, ⟨true, true, true, rg.2⟩)

/-- `CanvasService.analyze_course_performance` (source lines 247-395). -/
def analyze_course_performance (course_id : Int) (env : Env) : AnalyzeResult :=
  (analyzeCoursePerformanceT course_id env).1

/-! ## analyze_assignment_performance: the percentile computation -/

/-- Source lines 427-429: `below_count / len(scores) * 100` with a strict
comparison, computed when the class score list is non-empty. -/
def percentile_rank (x : ℚ) (xs : List ℚ) : ℚ :=
  ((xs.countP (fun s => s < x) : ℚ) / (xs.length : ℚ)) * 100

/-! ## generate_study_plan -/

/-- One entry of the prioritized `upcoming_assignments` list. -/
structure PrioritizedAssignment where
  id : Int
  name : String
  due_date : Option Int
  points_possible : Option ℚ
  group : String
  weight : ℚ
  priority : WithTop ℚ
deriving DecidableEq

/-- One entry of the fallback `upcoming_assignments` list (no group data). -/
structure SimpleAssignment where
  id : Int
  name : String
  due_date : Option Int
  points_possible : Option ℚ
deriving DecidableEq, Repr

/-- The `upcoming_assignments` list holds prioritized dicts on the main path
and the smaller fallback dicts when the group fetch failed. -/
inductive UpcomingEntry where
  | prioritized (p : PrioritizedAssignment)
  | simple (s : SimpleAssignment)
deriving DecidableEq

/-- The `"name"` key, present in both dict shapes. -/
def UpcomingEntry.entryName : UpcomingEntry → String
  | .prioritized p => p.name
  | .simple s => s.name

/-- The `"due_date"` key, present in both dict shapes. -/
def UpcomingEntry.entryDue : UpcomingEntry → Option Int
  | .prioritized p => p.due_date
  | .simple s => s.due_date

structure FocusArea where
  area : String
  reason : String
  upcoming_assignments : ℕ
  priority : String
deriving DecidableEq, Repr

structure Recommendation where
  type : String
  description : String
  priority : String
deriving DecidableEq, Repr

/-- The dict returned by `generate_study_plan` on the non-error path. -/
structure StudyPlan where
  course_id : Int
  course_name : String
  current_grade : Option String
  strengths : List String
  weaknesses : List String
  upcoming_assignments : List UpcomingEntry
  focus_areas : List FocusArea
  recommendations : List Recommendation
  message : List String
deriving DecidableEq

/-- The dict returned by `generate_study_plan` when the course fetch raised. -/
structure PlanError where
  course_id : Int
  course_name : String
  message : String
  error : Bool
  recommendations : List Recommendation
deriving DecidableEq, Repr

inductive PlanResult where
  | ok (p : StudyPlan)
  | err (e : PlanError)
deriving DecidableEq

def PlanResult.getPlan : PlanResult → Option StudyPlan
  | .ok p => some p
  | .err _ => none

def PlanResult.getError : PlanResult → Option PlanError
  | .ok _ => none
  | .err e => some e

/-- `get_upcoming_assignments`: assignments with a truthy `due_at` lying in
`[now, now + days*86400]` (source lines 134-149). -/
def upcomingFilter (now daysAhead : Int) (asgs : List Assignment) : List Assignment :=
  asgs.filter (fun a =>
    match a.due_at with
    | some d => now ≤ d && d ≤ now + daysAhead * 86400
    | none => false)

/-- The weight lookup of source lines 504-508: linear scan, first group whose
`id` equals the assignment's (possibly null) group id wins; default 0. -/
def weightFor (gs : List AssignmentGroup) (gid : Option Int) : ℚ :=
  match gs.find? (fun g => some g.id == gid) with
  | some g => g.group_weight.getD 0
  | none => 0

/-- The `group_names` dict lookup `group_names.get(group_id, "Other")` of
source lines 485 and 501 (dict construction lets a later duplicate id
overwrite an earlier one, hence the scan from the right). -/
def groupNameFor (gs : List AssignmentGroup) (gid : Option Int) : String :=
  match gid with
  | some i =>
    match gs.reverse.find? (fun g => g.id == i) with
    | some g => g.name
    | none => "Other"
  | none => "Other"

/-- Whole days from `now` to `d`, clamped at zero:
`max(0, (due_date - datetime.datetime.now()).days)`. -/
def daysUntilDue (now d : Int) : Int := max 0 ((d - now).fdiv 86400)

/-- The priority score of source lines 510-518: `days_until_due / (weight + 0.1)`
when a due date exists, `float("inf")` (here `⊤`) otherwise. -/
def priorityScore (gs : List AssignmentGroup) (now : Int) (a : Assignment) : WithTop ℚ :=
  match a.due_at with
  | some d => ((daysUntilDue now d : ℚ) / (weightFor gs a.assignment_group_id + 1 / 10) : ℚ)
  | none => ⊤

/-- One prioritized assignment dict (source lines 520-528). -/
def mkPrioritized (gs : List AssignmentGroup) (now : Int) (a : Assignment) :
    PrioritizedAssignment :=
  { id := a.id,
    name := a.name,
    due_date := a.due_at,
    points_possible := a.points_possible,
    group := groupNameFor gs a.assignment_group_id,
    weight := weightFor gs a.assignment_group_id,
    priority := priorityScore gs now a }

/-- Sort order of `prioritized_assignments.sort(key=lambda x: x["priority"])`. -/
def prioRel (a b : PrioritizedAssignment) : Prop := a.priority ≤ b.priority

instance : DecidableRel prioRel := fun _a _b => inferInstanceAs (Decidable (_ ≤ _))

instance : IsTotal PrioritizedAssignment prioRel := ⟨fun a b => le_total a.priority b.priority⟩

instance : IsTrans PrioritizedAssignment prioRel := ⟨fun _ _ _ => le_trans⟩

/-- The prioritization of source lines 497-531: build a prioritized dict per
upcoming assignment, then a stable ascending sort on the priority score
(Python's `list.sort` is stable; so is insertion sort, and any two stable
sorts on the same key agree). -/
def prioritizeUpcoming (gs : List AssignmentGroup) (now : Int)
    (upcoming : List Assignment) : List PrioritizedAssignment :=
  List.insertionSort prioRel (upcoming.map (mkPrioritized gs now))

/-- The bucket name an upcoming assignment gets in `upcoming_by_group`
(source lines 488-495): only truthy group ids are bucketed. -/
def bucketName (gs : List AssignmentGroup) (a : Assignment) : Option String :=
  (truthyId a.assignment_group_id).map (fun i => groupNameFor gs (some i))

/-- Focus areas (source lines 534-552): one per weakness, with the count of
upcoming assignments bucketed under that name.  A name is a key of
`upcoming_by_group` exactly when its count is positive, so the source's
two-step priority assignment amounts to `High` iff the count is positive. -/
def mkFocusAreas (weaknesses : List String) (gs : List AssignmentGroup)
    (upcoming : List Assignment) : List FocusArea :=
  weaknesses.map (fun w =>
    let c := upcoming.countP (fun a => bucketName gs a == some w)
    { area := w,
      reason := "Your performance in " ++ w ++ " assignments is below your course average.",
      upcoming_assignments := c,
      priority := if 0 < c then "High" else "Medium" })

/-- The fallback sort key of source line 569, `x.get("due_at", "9999-12-31")`:
the fallback dicts built on lines 560-566 store the due date under the key
`"due_date"` and have no `"due_at"` key, so this lookup always returns the
default sentinel string. -/
def fallbackSortKey (_ : SimpleAssignment) : String := "9999-12-31"

/-- `simple_assignments.sort(key=lambda x: x.get("due_at", "9999-12-31"))`. -/
def sortFallback (l : List SimpleAssignment) : List SimpleAssignment :=
  List.insertionSort (fun _a _b => fallbackSortKey _a ≤ fallbackSortKey _b) l

def errRecommendations : List Recommendation :=
  [{ type := "error_recovery",
     description := "Review your course syllabus and upcoming assignments",
     priority := "High" },
   { type := "error_recovery",
     description := "Meet with your instructor during office hours to discuss your progress",
     priority := "High" }]

/-- The recommendation block of source lines 575-622. -/
def mkRecommendations (upcoming : List UpcomingEntry) (focus : List FocusArea)
    (current_grade : Option String) : List Recommendation :=
  let recs :=
    (match upcoming with
     | [] => []
     | top :: _ =>
       [{ type := "assignment_prep",
          description := "Focus on preparing for " ++ top.entryName ++
            (match top.entryDue with
             | some d => " due on " ++ toString d
             | none => ""),
          priority := "High" }]) ++
    focus.map (fun area =>
      { type := "skill_improvement",
        description := "Improve skills in " ++ area.area,
        priority := area.priority })
  if recs = [] then
    match current_grade with
    | some g =>
      if g = "" then
        [{ type := "general_improvement",
           description := "Review your course syllabus and upcoming assignments",
           priority := "High" },
         { type := "general_improvement",
           description := "Create a study schedule for this course",
           priority := "Medium" }]
      else
        [{ type := "general_improvement",
           description := "Review your current course materials and notes",
           priority := "Medium" },
         { type := "general_improvement",
           description := "Meet with your instructor during office hours to discuss improvement strategies",
           priority := "High" }]
    | none =>
      [{ type := "general_improvement",
         description := "Review your course syllabus and upcoming assignments",
         priority := "High" },
       { type := "general_improvement",
         description := "Create a study schedule for this course",
         priority := "Medium" }]
  else recs

/-- `CanvasService.generate_study_plan` (source lines 445-645).  The nested
`analyze_course_performance` call never raises, so the `except` at source line
472 is unreachable; the error dict it can return (only when the course fetch
fails, which cannot happen on this branch) would contribute `None`/`[]`
through the `.get` defaults, which the model reproduces. -/
def generate_study_plan (course_id : Int) (env : Env) (days_ahead : Int) : PlanResult :=
  match env.course with
  | .error e =>
    .err { course_id := course_id,
           course_name := "Unknown Course",
           message := "Error generating study plan: " ++ e,
           error := true,
           recommendations := errRecommendations }
  | .ok course =>
    let p0 : StudyPlan :=
      { course_id := course_id,
        course_name := course.name.getD "Unknown Course",
        current_grade := none,
        strengths := [],
        weaknesses := [],
        upcoming_assignments := [],
        focus_areas := [],
        recommendations := [],
        message := ["Basic course information retrieved successfully"] }
    let p1 :=
      match analyze_course_performance course_id env with
      | .ok r =>
        { p0 with current_grade := r.current_grade,
                  strengths := r.strengths.getD [],
                  weaknesses := r.weaknesses.getD [],
                  message := p0.message ++ ["Performance analysis completed"] }
      | .err _ _ =>
        { p0 with message := p0.message ++ ["Performance analysis completed"] }
    let p2 :=
      match env.assignments with
      | .error e =>
        { p1 with message := p1.message ++ ["Could not retrieve upcoming assignments: " ++ e] }
      | .ok asgs =>
        let upcoming := upcomingFilter env.now days_ahead asgs
        match env.groups with
        | .ok gs =>
          { p1 with
            upcoming_assignments :=
              (prioritizeUpcoming gs env.now upcoming).map UpcomingEntry.prioritized,
            focus_areas := mkFocusAreas p1.weaknesses gs upcoming,
            message := p1.message ++ ["Assignment prioritization completed"] }
        | .error e =>
          let simple := upcoming.map (fun (a : Assignment) =>
            SimpleAssignment.mk a.id a.name a.due_at a.points_possible)
          { p1 with
            upcoming_assignments := (sortFallback simple).map UpcomingEntry.simple,
            message := p1.message ++ ["Could not prioritize assignments: " ++ e] }
    .ok { p2 with
          recommendations :=
            mkRecommendations p2.upcoming_assignments p2.focus_areas p2.current_grade,
          message := p2.message ++ ["Study plan generated successfully"] }

/-! ## Concrete inputs used by counterexamples and witnesses -/

/-- A graded submission with the given score, in the given assignment group. -/
def gradedSub (g : String) (sc : ℚ) (gid : Int) : Submission :=
  { grade := some g, score := some sc, assignment := some ⟨some gid⟩ }

/-- Environment where every fetch fails. -/
def envAllDown : Env :=
  { course := .error "connection refused",
    grades := .error "connection refused",
    assignments := .error "connection refused",
    submissions := .error "connection refused",
    groups := .error "connection refused",
    now := 0 }

/-- Environment for the study-plan fallback: course and assignments succeed
(the assignment due later is listed first), the group fetch fails. -/
def envFallback : Env :=
  { course := .ok ⟨some "Chemistry"⟩,
    grades := .error "grades down",
    assignments := .ok [⟨1, "Late", some 200000, none, none⟩,
                        ⟨2, "Early", some 100000, none, none⟩],
    submissions := .error "subs down",
    groups := .error "boom",
    now := 0 }

/-- Scenario D environment: one assignment due in exactly two days inside
group 10 (weight 50) and one due at the same time with no group. -/
def envScenarioD : Env :=
  { course := .ok ⟨some "Physics"⟩,
    grades := .ok ⟨none⟩,
    assignments := .ok [⟨1, "Weighted", some 172800, some 100, some 10⟩,
                        ⟨2, "Unweighted", some 172800, some 100, none⟩],
    submissions := .error "subs down",
    groups := .ok [⟨10, "Heavy", some 50⟩],
    now := 0 }

/-- Scenario A environment: Biology 101, graded scores 70/80/90 in group 1
("Labs", weight 30) and 60 in group 2 ("Exams", weight 70). -/
def envScenarioA : Env :=
  { course := .ok ⟨some "Biology 101"⟩,
    grades := .ok ⟨some [⟨some (some "B")⟩]⟩,
    assignments := .ok [],
    submissions := .ok [gradedSub "A" 70 1, gradedSub "A" 80 1,
                        gradedSub "A" 90 1, gradedSub "C" 60 2],
    groups := .ok [⟨1, "Labs", some 30⟩, ⟨2, "Exams", some 70⟩],
    now := 0 }

/-- A group ("Labs") whose only submission carries a numeric score 95 but a
null `grade` field, next to an ordinarily graded 60 in "Exams". -/
def envNullGrade : Env :=
  { course := .ok ⟨some "Biology 101"⟩,
    grades := .ok ⟨none⟩,
    assignments := .ok [],
    submissions := .ok [{ grade := some "C", score := some 60, assignment := some ⟨some 2⟩ },
                        { grade := none, score := some 95, assignment := some ⟨some 1⟩ }],
    groups := .ok [⟨1, "Labs", some 30⟩, ⟨2, "Exams", some 70⟩],
    now := 0 }

/-- A single submission with a numeric score but a null `grade` field;
everything else succeeds. -/
def envScoreNoGrade : Env :=
  { course := .ok ⟨some "Algebra"⟩,
    grades := .ok ⟨none⟩,
    assignments := .ok [⟨1, "HW", none, some 100, none⟩],
    submissions := .ok [{ grade := none, score := some 95, assignment := some ⟨some 1⟩ }],
    groups := .ok [],
    now := 0 }

/-- Two graded submissions with scores 70 and 80; groups fetched (empty). -/
def envTwoScores : Env :=
  { course := .ok ⟨some "Statistics"⟩,
    grades := .ok ⟨none⟩,
    assignments := .ok [],
    submissions := .ok [⟨some "B", some 70, none⟩, ⟨some "B", some 80, none⟩],
    groups := .ok [],
    now := 0 }

/-- The assignment fetch fails while the submissions fetch succeeds with one
graded submission. -/
def envMoreGradedThanTotal : Env :=
  { course := .ok ⟨some "Geometry"⟩,
    grades := .ok ⟨none⟩,
    assignments := .error "assignments down",
    submissions := .ok [gradedSub "B" 88 1],
    groups := .ok [⟨1, "Labs", some 30⟩],
    now := 0 }

/-- The grades fetch fails while everything else succeeds. -/
def envGradesDown : Env :=
  { course := .ok ⟨some "Music"⟩,
    grades := .error "grades down",
    assignments := .ok [],
    submissions := .ok [⟨some "B", some 50, none⟩],
    groups := .ok [],
    now := 0 }

/-- The submissions fetch fails while everything else succeeds. -/
def envSubsDown : Env :=
  { course := .ok ⟨some "Botany"⟩,
    grades := .ok ⟨some [⟨some (some "A-")⟩]⟩,
    assignments := .ok [⟨1, "Quiz", some (-100), none, some 1⟩],
    submissions := .error "submissions down",
    groups := .ok [⟨1, "Quizzes", some 20⟩],
    now := 0 }

/-! ## General lemmas about the embedding -/

/-- When the course fetch succeeds, `analyze_course_performance` runs the four
secondary steps in order. -/
theorem analyzeT_course_ok (course_id : Int) (env : Env) (c : CourseInfo)
    (hc : env.course = .ok c) :
    analyzeCoursePerformanceT course_id env =
      ((.ok (stepSubmissions env.submissions env.groups env.now
          (stepAssignments env.assignments (stepGrades env.grades (initReport course_id c)))).1),
       ⟨true, true, true,
        (stepSubmissions env.submissions env.groups env.now
          (stepAssignments env.assignments (stepGrades env.grades (initReport course_id c)))).2⟩) := by
  unfold analyzeCoursePerformanceT
  rw [hc]

/-- Inserting under the constant fallback key keeps the element in front:
the comparison `"9999-12-31" ≤ "9999-12-31"` always succeeds. -/
theorem orderedInsert_const_key (x : SimpleAssignment) (l : List SimpleAssignment) :
    List.orderedInsert (fun a b => fallbackSortKey a ≤ fallbackSortKey b) x l = x :: l := by
  cases l with
  | nil => rfl
  | cons y ys => simp [List.orderedInsert, fallbackSortKey]

/-- The fallback sort of source line 569 is the identity: every element has
the same (defaulted) sort key, and the sort is stable. -/
theorem sortFallback_eq_self (l : List SimpleAssignment) : sortFallback l = l := by
  induction l with
  | nil => rfl
  | cons x xs ih =>
    unfold sortFallback at ih ⊢
    rw [List.insertionSort, ih, orderedInsert_const_key]

/-- Each fetch step leaves the report fields it does not own unchanged;
one lemma per preserved field. -/
@[simp]
theorem stepGrades_total_assignments (g : Except String GradesInfo) (r : PerfReport) :
    (stepGrades g r).total_assignments = r.total_assignments := by
  cases g <;> rfl

@[simp]
theorem stepGrades_graded_assignments (g : Except String GradesInfo) (r : PerfReport) :
    (stepGrades g r).graded_assignments = r.graded_assignments := by
  cases g <;> rfl

@[simp]
theorem stepGrades_assignments (g : Except String GradesInfo) (r : PerfReport) :
    (stepGrades g r).assignments = r.assignments := by
  cases g <;> rfl

@[simp]
theorem stepGrades_average_score (g : Except String GradesInfo) (r : PerfReport) :
    (stepGrades g r).average_score = r.average_score := by
  cases g <;> rfl

@[simp]
theorem stepGrades_median_score (g : Except String GradesInfo) (r : PerfReport) :
    (stepGrades g r).median_score = r.median_score := by
  cases g <;> rfl

@[simp]
theorem stepGrades_score_std_dev (g : Except String GradesInfo) (r : PerfReport) :
    (stepGrades g r).score_std_dev = r.score_std_dev := by
  cases g <;> rfl

@[simp]
theorem stepGrades_group_statistics (g : Except String GradesInfo) (r : PerfReport) :
    (stepGrades g r).group_statistics = r.group_statistics := by
  cases g <;> rfl

@[simp]
theorem stepGrades_strengths (g : Except String GradesInfo) (r : PerfReport) :
    (stepGrades g r).strengths = r.strengths := by
  cases g <;> rfl

@[simp]
theorem stepGrades_weaknesses (g : Except String GradesInfo) (r : PerfReport) :
    (stepGrades g r).weaknesses = r.weaknesses := by
  cases g <;> rfl

@[simp]
theorem stepGrades_upcoming_assignments_count (g : Except String GradesInfo) (r : PerfReport) :
    (stepGrades g r).upcoming_assignments_count = r.upcoming_assignments_count := by
  cases g <;> rfl

@[simp]
theorem stepAssignments_current_grade (a : Except String (List Assignment)) (r : PerfReport) :
    (stepAssignments a r).current_grade = r.current_grade := by
  cases a <;> rfl

@[simp]
theorem stepAssignments_graded_assignments (a : Except String (List Assignment)) (r : PerfReport) :
    (stepAssignments a r).graded_assignments = r.graded_assignments := by
  cases a <;> rfl

@[simp]
theorem stepAssignments_average_score (a : Except String (List Assignment)) (r : PerfReport) :
    (stepAssignments a r).average_score = r.average_score := by
  cases a <;> rfl

@[simp]
theorem stepAssignments_median_score (a : Except String (List Assignment)) (r : PerfReport) :
    (stepAssignments a r).median_score = r.median_score := by
  cases a <;> rfl

@[simp]
theorem stepAssignments_score_std_dev (a : Except String (List Assignment)) (r : PerfReport) :
    (stepAssignments a r).score_std_dev = r.score_std_dev := by
  cases a <;> rfl

@[simp]
theorem stepAssignments_group_statistics (a : Except String (List Assignment)) (r : PerfReport) :
    (stepAssignments a r).group_statistics = r.group_statistics := by
  cases a <;> rfl

@[simp]
theorem stepAssignments_strengths (a : Except String (List Assignment)) (r : PerfReport) :
    (stepAssignments a r).strengths = r.strengths := by
  cases a <;> rfl

@[simp]
theorem stepAssignments_weaknesses (a : Except String (List Assignment)) (r : PerfReport) :
    (stepAssignments a r).weaknesses = r.weaknesses := by
  cases a <;> rfl

@[simp]
theorem stepAssignments_upcoming_assignments_count (a : Except String (List Assignment)) (r : PerfReport) :
    (stepAssignments a r).upcoming_assignments_count = r.upcoming_assignments_count := by
  cases a <;> rfl

@[simp]
theorem stepGroups_current_grade (gr : Except String (List AssignmentGroup))
    (graded : List Submission) (numeric : List ℚ) (r : PerfReport) :
    (stepGroups gr graded numeric r).current_grade = r.current_grade := by
  cases gr <;> rfl

@[simp]
theorem stepGroups_total_assignments (gr : Except String (List AssignmentGroup))
    (graded : List Submission) (numeric : List ℚ) (r : PerfReport) :
    (stepGroups gr graded numeric r).total_assignments = r.total_assignments := by
  cases gr <;> rfl

@[simp]
theorem stepGroups_graded_assignments (gr : Except String (List AssignmentGroup))
    (graded : List Submission) (numeric : List ℚ) (r : PerfReport) :
    (stepGroups gr graded numeric r).graded_assignments = r.graded_assignments := by
  cases gr <;> rfl

@[simp]
theorem stepGroups_assignments (gr : Except String (List AssignmentGroup))
    (graded : List Submission) (numeric : List ℚ) (r : PerfReport) :
    (stepGroups gr graded numeric r).assignments = r.assignments := by
  cases gr <;> rfl

@[simp]
theorem stepGroups_average_score (gr : Except String (List AssignmentGroup))
    (graded : List Submission) (numeric : List ℚ) (r : PerfReport) :
    (stepGroups gr graded numeric r).average_score = r.average_score := by
  cases gr <;> rfl

@[simp]
theorem stepGroups_median_score (gr : Except String (List AssignmentGroup))
    (graded : List Submission) (numeric : List ℚ) (r : PerfReport) :
    (stepGroups gr graded numeric r).median_score = r.median_score := by
  cases gr <;> rfl

@[simp]
theorem stepGroups_score_std_dev (gr : Except String (List AssignmentGroup))
    (graded : List Submission) (numeric : List ℚ) (r : PerfReport) :
    (stepGroups gr graded numeric r).score_std_dev = r.score_std_dev := by
  cases gr <;> rfl

@[simp]
theorem stepGroups_upcoming_assignments_count (gr : Except String (List AssignmentGroup))
    (graded : List Submission) (numeric : List ℚ) (r : PerfReport) :
    (stepGroups gr graded numeric r).upcoming_assignments_count = r.upcoming_assignments_count := by
  cases gr <;> rfl

@[simp]
theorem stepUpcomingCount_current_grade (now : Int) (r : PerfReport) :
    (stepUpcomingCount now r).current_grade = r.current_grade := by
  unfold stepUpcomingCount
  split
  · dsimp only
    split <;> rfl
  · rfl

@[simp]
theorem stepUpcomingCount_total_assignments (now : Int) (r : PerfReport) :
    (stepUpcomingCount now r).total_assignments = r.total_assignments := by
  unfold stepUpcomingCount
  split
  · dsimp only
    split <;> rfl
  · rfl

@[simp]
theorem stepUpcomingCount_graded_assignments (now : Int) (r : PerfReport) :
    (stepUpcomingCount now r).graded_assignments = r.graded_assignments := by
  unfold stepUpcomingCount
  split
  · dsimp only
    split <;> rfl
  · rfl

@[simp]
theorem stepUpcomingCount_assignments (now : Int) (r : PerfReport) :
    (stepUpcomingCount now r).assignments = r.assignments := by
  unfold stepUpcomingCount
  split
  · dsimp only
    split <;> rfl
  · rfl

@[simp]
theorem stepUpcomingCount_average_score (now : Int) (r : PerfReport) :
    (stepUpcomingCount now r).average_score = r.average_score := by
  unfold stepUpcomingCount
  split
  · dsimp only
    split <;> rfl
  · rfl

@[simp]
theorem stepUpcomingCount_median_score (now : Int) (r : PerfReport) :
    (stepUpcomingCount now r).median_score = r.median_score := by
  unfold stepUpcomingCount
  split
  · dsimp only
    split <;> rfl
  · rfl

@[simp]
theorem stepUpcomingCount_score_std_dev (now : Int) (r : PerfReport) :
    (stepUpcomingCount now r).score_std_dev = r.score_std_dev := by
  unfold stepUpcomingCount
  split
  · dsimp only
    split <;> rfl
  · rfl

@[simp]
theorem stepUpcomingCount_group_statistics (now : Int) (r : PerfReport) :
    (stepUpcomingCount now r).group_statistics = r.group_statistics := by
  unfold stepUpcomingCount
  split
  · dsimp only
    split <;> rfl
  · rfl

@[simp]
theorem stepUpcomingCount_strengths (now : Int) (r : PerfReport) :
    (stepUpcomingCount now r).strengths = r.strengths := by
  unfold stepUpcomingCount
  split
  · dsimp only
    split <;> rfl
  · rfl

@[simp]
theorem stepUpcomingCount_weaknesses (now : Int) (r : PerfReport) :
    (stepUpcomingCount now r).weaknesses = r.weaknesses := by
  unfold stepUpcomingCount
  split
  · dsimp only
    split <;> rfl
  · rfl

/-- Narrative chunks already present survive the grades step. -/
theorem stepGrades_message_mono (g : Except String GradesInfo) (r : PerfReport)
    {x : String} (hx : x ∈ r.message) : x ∈ (stepGrades g r).message := by
  cases g <;> simp [stepGrades, hx]

/-- Narrative chunks already present survive the assignments step. -/
theorem stepAssignments_message_mono (a : Except String (List Assignment))
    (r : PerfReport) {x : String} (hx : x ∈ r.message) :
    x ∈ (stepAssignments a r).message := by
  cases a <;> simp [stepAssignments, hx]

/-- Narrative chunks already present survive the group step. -/
theorem stepGroups_message_mono (gr : Except String (List AssignmentGroup))
    (graded : List Submission) (numeric : List ℚ) (r : PerfReport)
    {x : String} (hx : x ∈ r.message) : x ∈ (stepGroups gr graded numeric r).message := by
  cases gr <;> simp [stepGroups, hx]

/-- Narrative chunks already present survive the upcoming-count fallback. -/
theorem stepUpcomingCount_message_mono (now : Int) (r : PerfReport)
    {x : String} (hx : x ∈ r.message) : x ∈ (stepUpcomingCount now r).message := by
  unfold stepUpcomingCount
  split
  · dsimp only
    split
    · exact hx
    · simp [hx]
  · exact hx

/-- Narrative chunks already present survive the submissions step. -/
theorem stepSubmissions_message_mono (s : Except String (List Submission))
    (gr : Except String (List AssignmentGroup)) (now : Int) (r : PerfReport)
    {x : String} (hx : x ∈ r.message) : x ∈ (stepSubmissions s gr now r).1.message := by
  unfold stepSubmissions
  rcases s with e | subs
  · exact stepUpcomingCount_message_mono now _ (by simp [hx])
  · by_cases hg : gradedSubmissions subs = []
    · simp [hg, hx]
    · simp only [hg, if_false]
      apply stepGroups_message_mono
      split <;> simp [hx]

@[simp]
theorem stepSubmissions_current_grade (s : Except String (List Submission))
    (gr : Except String (List AssignmentGroup)) (now : Int) (r : PerfReport) :
    (stepSubmissions s gr now r).1.current_grade = r.current_grade := by
  unfold stepSubmissions
  rcases s with e | subs
  · simp
  · by_cases hg : gradedSubmissions subs = []
    · simp [hg]
    · simp only [hg, if_false]
      rw [stepGroups_current_grade]
      split <;> rfl

@[simp]
theorem stepSubmissions_total_assignments (s : Except String (List Submission))
    (gr : Except String (List AssignmentGroup)) (now : Int) (r : PerfReport) :
    (stepSubmissions s gr now r).1.total_assignments = r.total_assignments := by
  unfold stepSubmissions
  rcases s with e | subs
  · simp
  · by_cases hg : gradedSubmissions subs = []
    · simp [hg]
    · simp only [hg, if_false]
      rw [stepGroups_total_assignments]
      split <;> rfl

@[simp]
theorem stepSubmissions_assignments (s : Except String (List Submission))
    (gr : Except String (List AssignmentGroup)) (now : Int) (r : PerfReport) :
    (stepSubmissions s gr now r).1.assignments = r.assignments := by
  unfold stepSubmissions
  rcases s with e | subs
  · simp
  · by_cases hg : gradedSubmissions subs = []
    · simp [hg]
    · simp only [hg, if_false]
      rw [stepGroups_assignments]
      split <;> rfl

/-- When the report carries no fetched assignment list, the submissions step
leaves `upcoming_assignments_count` alone on every path. -/
theorem stepSubmissions_upcoming_count_none (s : Except String (List Submission))
    (gr : Except String (List AssignmentGroup)) (now : Int) (r : PerfReport)
    (h : r.assignments = none) :
    (stepSubmissions s gr now r).1.upcoming_assignments_count =
      r.upcoming_assignments_count := by
  unfold stepSubmissions
  rcases s with e | subs
  · show (stepUpcomingCount now _).upcoming_assignments_count = _
    unfold stepUpcomingCount
    split
    · next heq => rw [show ({ r with message := r.message ++
        ["Could not retrieve submission information: " ++ e] } : PerfReport).assignments =
          r.assignments from rfl, h] at heq
                  exact absurd heq (by simp)
    · rfl
  · by_cases hg : gradedSubmissions subs = []
    · simp [hg]
    · simp only [hg, if_false]
      rw [stepGroups_upcoming_assignments_count]
      split <;> rfl

/-- The assignment-groups endpoint is called exactly when the submissions
fetch succeeded with at least one graded submission. -/
theorem stepSubmissions_snd_iff (s : Except String (List Submission))
    (gr : Except String (List AssignmentGroup)) (now : Int) (r : PerfReport) :
    (stepSubmissions s gr now r).2 = true ↔
      ∃ subs, s = .ok subs ∧ gradedSubmissions subs ≠ [] := by
  unfold stepSubmissions
  rcases s with e | subs
  · simp
  · by_cases hg : gradedSubmissions subs = []
    · simp [hg]
    · simp [hg]

/-- After a successful submissions fetch, `graded_assignments` is the number
of submissions with a truthy `grade`, on every later path. -/
theorem stepSubmissions_ok_graded (subs : List Submission)
    (gr : Except String (List AssignmentGroup)) (now : Int) (r : PerfReport) :
    (stepSubmissions (.ok subs) gr now r).1.graded_assignments =
      (gradedSubmissions subs).length := by
  unfold stepSubmissions
  by_cases hg : gradedSubmissions subs = []
  · simp [hg]
  · simp only [hg, if_false, stepGroups_graded_assignments]
    split <;> rfl

/-- When the course fetch succeeds, `analyze_course_performance` returns the
report computed by the step chain (in particular it is never the error dict). -/
theorem analyze_ok_of_course (course_id : Int) (env : Env) (c : CourseInfo)
    (hc : env.course = .ok c) :
    analyze_course_performance course_id env =
      .ok (stepSubmissions env.submissions env.groups env.now
        (stepAssignments env.assignments (stepGrades env.grades (initReport course_id c)))).1 := by
  unfold analyze_course_performance
  rw [analyzeT_course_ok course_id env c hc]

/-- Keys of a dict after an `upsert`: unchanged when the key is present,
extended at the end otherwise. -/
theorem upsert_keys (k : String) (v : GroupStat) (l : List (String × GroupStat)) :
    (upsert k v l).map Prod.fst =
      if k ∈ l.map Prod.fst then l.map Prod.fst else l.map Prod.fst ++ [k] := by
  induction l with
  | nil => simp [upsert]
  | cons p rest ih =>
    by_cases hp : p.1 = k
    · simp [upsert, hp]
    · by_cases hk : k ∈ rest.map Prod.fst <;>
        simp [upsert, hp, hk, ih, Ne.symm hp]

/-- `upsert` preserves distinctness of the keys. -/
theorem upsert_keys_nodup (k : String) (v : GroupStat) (l : List (String × GroupStat))
    (h : (l.map Prod.fst).Nodup) : ((upsert k v l).map Prod.fst).Nodup := by
  rw [upsert_keys]
  split
  · exact h
  · next hk => simp [List.nodup_append, h, hk]

/-- `upsert` with a fresh key appends. -/
theorem upsert_of_not_mem (k : String) (v : GroupStat) (l : List (String × GroupStat))
    (h : k ∉ l.map Prod.fst) : upsert k v l = l ++ [(k, v)] := by
  induction l with
  | nil => rfl
  | cons p rest ih =>
    simp only [List.map_cons, List.mem_cons, not_or] at h
    rw [upsert, if_neg (fun hp => h.1 hp.symm), ih h.2, List.cons_append]

/-- The keys of the `group_stats` dict are distinct (it is a Python dict). -/
theorem groupStatsAux_keys_nodup (graded : List Submission) :
    ∀ (gs : List AssignmentGroup) (acc : List (String × GroupStat)),
      (acc.map Prod.fst).Nodup → ((groupStatsAux graded gs acc).map Prod.fst).Nodup := by
  intro gs
  induction gs with
  | nil => intro acc h; exact h
  | cons g rest ih =>
    intro acc h
    unfold groupStatsAux
    split
    · exact ih acc h
    · exact ih _ (upsert_keys_nodup _ _ _ h)

theorem groupStats_keys_nodup (graded : List Submission) (gs : List AssignmentGroup) :
    ((groupStats graded gs).map Prod.fst).Nodup :=
  groupStatsAux_keys_nodup graded gs [] (by simp)

/-- In a dict with distinct keys, a key determines its value. -/
theorem value_eq_of_keys_nodup {l : List (String × GroupStat)}
    (h : (l.map Prod.fst).Nodup) {n : String} {st1 st2 : GroupStat}
    (h1 : (n, st1) ∈ l) (h2 : (n, st2) ∈ l) : st1 = st2 := by
  have := List.inj_on_of_nodup_map h h1 h2 rfl
  exact congrArg Prod.snd this

/-- With distinct group names, the `group_stats` dict is the in-order list of
entries for the groups having at least one bucketed numeric score. -/
theorem groupStatsAux_eq (graded : List Submission) :
    ∀ (gs : List AssignmentGroup) (acc : List (String × GroupStat)),
      (∀ g ∈ gs, g.name ∉ acc.map Prod.fst) →
      ((gs.map (fun g => g.name)).Nodup) →
      groupStatsAux graded gs acc =
        acc ++ gs.filterMap (fun g =>
          if groupScores graded g.id = [] then none
          else some (g.name, statOf graded g)) := by
  intro gs
  induction gs with
  | nil => intro acc _ _; simp [groupStatsAux]
  | cons g rest ih =>
    intro acc hacc hnodup
    unfold groupStatsAux
    by_cases hsc : groupScores graded g.id = []
    · rw [if_pos hsc,
        ih acc (fun g' hg' => hacc g' (List.mem_cons_of_mem _ hg')) (List.Nodup.of_cons hnodup)]
      simp [List.filterMap_cons, hsc]
    · rw [if_neg hsc, upsert_of_not_mem _ _ _ (hacc g (List.mem_cons_self _ _))]
      rw [ih (acc ++ [(g.name, statOf graded g)]) ?_ (List.Nodup.of_cons hnodup)]
      · simp [List.filterMap_cons, hsc]
      · intro g' hg'
        simp only [List.map_append, List.mem_append, not_or]
        refine ⟨hacc g' (List.mem_cons_of_mem _ hg'), ?_⟩
        simp only [List.map_cons, List.map_nil, List.mem_singleton]
        intro hname
        refine (List.nodup_cons.mp hnodup).1 ?_
        have hmm := List.mem_map_of_mem (fun g => g.name) hg'
        simpa [hname] using hmm

/-- Membership in the `group_stats` dict, assuming distinct group names. -/
theorem mem_groupStats_iff (graded : List Submission) (gs : List AssignmentGroup)
    (hnodup : (gs.map (fun g => g.name)).Nodup) (n : String) (st : GroupStat) :
    (n, st) ∈ groupStats graded gs ↔
      ∃ g ∈ gs, g.name = n ∧ groupScores graded g.id ≠ [] ∧ st = statOf graded g := by
  unfold groupStats
  rw [groupStatsAux_eq graded gs [] (by simp) hnodup]
  simp only [List.nil_append, List.mem_filterMap]
  constructor
  · rintro ⟨g, hg, hfg⟩
    by_cases hsc : groupScores graded g.id = []
    · rw [if_pos hsc] at hfg
      exact absurd hfg (by simp)
    · rw [if_neg hsc] at hfg
      injection hfg with hfg
      injection hfg with h1 h2
      exact ⟨g, hg, h1, hsc, h2.symm⟩
  · rintro ⟨g, hg, hname, hsc, hst⟩
    exact ⟨g, hg, by rw [if_neg hsc, hname, hst]⟩

/-- Membership in the strengths list produced by the classification loop. -/
theorem classifyGroups_mem_left (avg : ℚ) (l : List (String × GroupStat)) (n : String) :
    n ∈ (classifyGroups avg l).1 ↔
      ∃ st, (n, st) ∈ l ∧ ∃ a, st.average_score = some a ∧ avg < a := by
  induction l with
  | nil => simp [classifyGroups]
  | cons p rest ih =>
    obtain ⟨pn, pst⟩ := p
    rcases hps : pst.average_score with _ | a
    · simp only [classifyGroups, hps]
      rw [ih]
      constructor
      · rintro ⟨st, hmem, ha⟩
        exact ⟨st, List.mem_cons_of_mem _ hmem, ha⟩
      · rintro ⟨st, hmem, a, hsome, hlt⟩
        rcases List.mem_cons.mp hmem with heq | hmem'
        · injection heq with h1 h2
          subst h2
          rw [hps] at hsome
          cases hsome
        · exact ⟨st, hmem', a, hsome, hlt⟩
    · by_cases hlt : avg < a
      · simp only [classifyGroups, hps, if_pos hlt]
        rw [List.mem_cons, ih]
        constructor
        · rintro (rfl | ⟨st, hmem, ha⟩)
          · exact ⟨pst, List.mem_cons_self _ _, a, hps, hlt⟩
          · exact ⟨st, List.mem_cons_of_mem _ hmem, ha⟩
        · rintro ⟨st, hmem, a', hsome, hlt'⟩
          rcases List.mem_cons.mp hmem with heq | hmem'
          · exact Or.inl (congrArg Prod.fst heq)
          · exact Or.inr ⟨st, hmem', a', hsome, hlt'⟩
      · simp only [classifyGroups, hps, if_neg hlt]
        rw [ih]
        constructor
        · rintro ⟨st, hmem, ha⟩
          exact ⟨st, List.mem_cons_of_mem _ hmem, ha⟩
        · rintro ⟨st, hmem, a', hsome, hlt'⟩
          rcases List.mem_cons.mp hmem with heq | hmem'
          · injection heq with h1 h2
            subst h2
            rw [hps] at hsome
            injection hsome with hsome
            subst hsome
            exact absurd hlt' hlt
          · exact ⟨st, hmem', a', hsome, hlt'⟩

/-- Membership in the weaknesses list produced by the classification loop. -/
theorem classifyGroups_mem_right (avg : ℚ) (l : List (String × GroupStat)) (n : String) :
    n ∈ (classifyGroups avg l).2 ↔
      ∃ st, (n, st) ∈ l ∧ ∃ a, st.average_score = some a ∧ ¬ avg < a := by
  induction l with
  | nil => simp [classifyGroups]
  | cons p rest ih =>
    obtain ⟨pn, pst⟩ := p
    rcases hps : pst.average_score with _ | a
    · simp only [classifyGroups, hps]
      rw [ih]
      constructor
      · rintro ⟨st, hmem, ha⟩
        exact ⟨st, List.mem_cons_of_mem _ hmem, ha⟩
      · rintro ⟨st, hmem, a, hsome, hlt⟩
        rcases List.mem_cons.mp hmem with heq | hmem'
        · injection heq with h1 h2
          subst h2
          rw [hps] at hsome
          cases hsome
        · exact ⟨st, hmem', a, hsome, hlt⟩
    · by_cases hlt : avg < a
      · simp only [classifyGroups, hps, if_pos hlt]
        rw [ih]
        constructor
        · rintro ⟨st, hmem, ha⟩
          exact ⟨st, List.mem_cons_of_mem _ hmem, ha⟩
        · rintro ⟨st, hmem, a', hsome, hlt'⟩
          rcases List.mem_cons.mp hmem with heq | hmem'
          · injection heq with h1 h2
            subst h2
            rw [hps] at hsome
            injection hsome with hsome
            subst hsome
            exact absurd hlt hlt'
          · exact ⟨st, hmem', a', hsome, hlt'⟩
      · simp only [classifyGroups, hps, if_neg hlt]
        rw [List.mem_cons, ih]
        constructor
        · rintro (rfl | ⟨st, hmem, ha⟩)
          · exact ⟨pst, List.mem_cons_self _ _, a, hps, hlt⟩
          · exact ⟨st, List.mem_cons_of_mem _ hmem, ha⟩
        · rintro ⟨st, hmem, a', hsome, hlt'⟩
          rcases List.mem_cons.mp hmem with heq | hmem'
          · exact Or.inl (congrArg Prod.fst heq)
          · exact Or.inr ⟨st, hmem', a', hsome, hlt'⟩

/-- A name is never in both classification lists when the dict keys are
distinct. -/
theorem classifyGroups_disjoint (avg : ℚ) (l : List (String × GroupStat))
    (h : (l.map Prod.fst).Nodup) (n : String) :
    ¬ (n ∈ (classifyGroups avg l).1 ∧ n ∈ (classifyGroups avg l).2) := by
  rintro ⟨hs, hw⟩
  obtain ⟨st1, hm1, a1, ha1, hlt1⟩ := (classifyGroups_mem_left avg l n).mp hs
  obtain ⟨st2, hm2, a2, ha2, hlt2⟩ := (classifyGroups_mem_right avg l n).mp hw
  obtain rfl := value_eq_of_keys_nodup h hm1 hm2
  rw [ha1] at ha2
  injection ha2 with ha2
  subst ha2
  exact hlt2 hlt1

/-- The strengths/weaknesses/statistics fields after a successful submissions
fetch with at least one graded submission and a successful group fetch. -/
theorem stepSubmissions_ok_sw (subs : List Submission) (gs : List AssignmentGroup)
    (now : Int) (r : PerfReport) (hne : gradedSubmissions subs ≠ []) :
    (stepSubmissions (.ok subs) (.ok gs) now r).1.strengths =
      some (if numericGrades subs = [] then []
            else (classifyGroups (mean (numericGrades subs))
                   (groupStats (gradedSubmissions subs) gs)).1) ∧
    (stepSubmissions (.ok subs) (.ok gs) now r).1.weaknesses =
      some (if numericGrades subs = [] then []
            else (classifyGroups (mean (numericGrades subs))
                   (groupStats (gradedSubmissions subs) gs)).2) ∧
    (stepSubmissions (.ok subs) (.ok gs) now r).1.group_statistics =
      some (groupStats (gradedSubmissions subs) gs) := by
  unfold stepSubmissions
  simp only [hne, if_false]
  unfold stepGroups
  by_cases hn : numericGrades subs = [] <;> simp [hn]

/-! ## Claims -/

/-- C2: if the initial course-details fetch fails, `analyze_course_performance`
fails as a whole: the caller receives the data-unavailable error object (the
dict `{"course_id", "message", "error": True}` carrying the failure message —
the source converts the exception into this value rather than re-raising) and
no performance report is produced for that call. -/
theorem analyze_course_fetch_fatal (course_id : Int) (env : Env) (e : String)
    (h : env.course = .error e) :
    analyze_course_performance course_id env =
      .err course_id ("Error analyzing course performance: " ++ e) ∧
    (analyze_course_performance course_id env).getReport = none := by
  have key : analyze_course_performance course_id env =
      .err course_id ("Error analyzing course performance: " ++ e) := by
    unfold analyze_course_performance analyzeCoursePerformanceT
    rw [h]
  exact ⟨key, by rw [key]; rfl⟩

theorem analyze_course_fetch_fatal_witness :
    envAllDown.course = Except.error "connection refused" ∧
    analyze_course_performance 42 envAllDown =
      .err 42 ("Error analyzing course performance: " ++ "connection refused") :=
  ⟨rfl, (analyze_course_fetch_fatal 42 envAllDown "connection refused" rfl).1⟩

/-- C9: the percentile of a score `x` over the class scores `xs` is
`100 × (count of elements of xs strictly below x) / |xs|` (ties do not count
as below); for non-empty `xs` it lies in `[0, 100]`, and it is monotone
non-decreasing in `x` for fixed `xs`. -/
theorem percentile_rank_spec (x y : ℚ) (xs : List ℚ) :
    percentile_rank x xs = 100 * ((xs.countP (fun s => s < x) : ℚ) / (xs.length : ℚ)) ∧
    (xs ≠ [] → 0 ≤ percentile_rank x xs ∧ percentile_rank x xs ≤ 100) ∧
    (x ≤ y → percentile_rank x xs ≤ percentile_rank y xs) := by
  refine ⟨by unfold percentile_rank; ring, fun h => ⟨?_, ?_⟩, fun hxy => ?_⟩
  · unfold percentile_rank
    positivity
  · unfold percentile_rank
    have hl : (0 : ℚ) < (xs.length : ℚ) := by
      exact_mod_cast List.length_pos.mpr h
    have hc : ((xs.countP (fun s => s < x) : ℚ)) / (xs.length : ℚ) ≤ 1 := by
      rw [div_le_one hl]
      exact_mod_cast xs.countP_le_length _
    calc ((xs.countP (fun s => s < x) : ℚ)) / (xs.length : ℚ) * 100 ≤ 1 * 100 := by
          exact mul_le_mul_of_nonneg_right hc (by norm_num)
      _ = 100 := by norm_num
  · have hl : (0 : ℚ) ≤ (xs.length : ℚ) := by positivity
    have hcount : xs.countP (fun s => decide (s < x)) ≤
        xs.countP (fun s => decide (s < y)) := by
      apply List.countP_mono_left
      intro a _ ha
      simpa using lt_of_lt_of_le (by simpa using ha) hxy
    unfold percentile_rank
    have key : ((xs.countP (fun s => s < x) : ℚ)) / (xs.length : ℚ) ≤
        ((xs.countP (fun s => s < y) : ℚ)) / (xs.length : ℚ) := by
      apply div_le_div_of_nonneg_right ?_ hl
      exact_mod_cast hcount
    exact mul_le_mul_of_nonneg_right key (by norm_num)

theorem percentile_rank_spec_witness :
    ([(1 : ℚ), 2, 3] ≠ []) ∧ ((2 : ℚ) ≤ 3) ∧
    (0 ≤ percentile_rank 2 [1, 2, 3] ∧ percentile_rank 2 [1, 2, 3] ≤ 100) ∧
    percentile_rank 2 [1, 2, 3] ≤ percentile_rank 3 [1, 2, 3] :=
  ⟨by simp, by norm_num,
   (percentile_rank_spec 2 3 [1, 2, 3]).2.1 (by simp),
   (percentile_rank_spec 2 3 [1, 2, 3]).2.2 (by norm_num)⟩

/-- C10: `generate_study_plan` is total over every fetch outcome (the model is
a total function; the source wraps its whole body in a try/except).  When the
load-bearing course fetch fails, the returned object carries the error flag, a
message describing the error, and exactly two `error_recovery` recommendations,
both with priority `High`; when the course fetch succeeds the result is a
study plan, never the error object. -/
theorem studyPlan_total_failure (course_id days_ahead : Int) (env : Env) :
    (∀ e, env.course = .error e →
       generate_study_plan course_id env days_ahead =
         .err { course_id := course_id, course_name := "Unknown Course",
                message := "Error generating study plan: " ++ e, error := true,
                recommendations := errRecommendations } ∧
       errRecommendations.length = 2 ∧
       ∀ r ∈ errRecommendations, r.type = "error_recovery" ∧ r.priority = "High") ∧
    (∀ c, env.course = .ok c →
       ∃ p, generate_study_plan course_id env days_ahead = .ok p) := by
  constructor
  · intro e he
    refine ⟨?_, by decide, by decide⟩
    unfold generate_study_plan
    rw [he]
  · intro c hcc
    unfold generate_study_plan
    rw [hcc]
    exact ⟨_, rfl⟩

theorem studyPlan_total_failure_witness :
    envAllDown.course = Except.error "connection refused" ∧
    generate_study_plan 7 envAllDown 14 =
      .err { course_id := 7, course_name := "Unknown Course",
             message := "Error generating study plan: " ++ "connection refused",
             error := true, recommendations := errRecommendations } ∧
    errRecommendations.length = 2 ∧
    (∀ r ∈ errRecommendations, r.type = "error_recovery" ∧ r.priority = "High") := by
  have h := (studyPlan_total_failure 7 14 envAllDown).1 "connection refused" rfl
  exact ⟨rfl, h.1, h.2.1, h.2.2⟩

/-- C5 (code bug): when the group fetch fails but the assignment fetch
succeeds, the fallback of source lines 558-570 returns every upcoming
assignment exactly once and the narrative notes the failure, but the list is
NOT ordered by due date: the sort key `x.get("due_at", "9999-12-31")` looks up
a key the fallback dicts do not define (they store the date under
`"due_date"`), so every element gets the same sentinel key and the stable sort
leaves the input order unchanged.  Here the assignment due at 200000 stays
ahead of the one due at 100000, contradicting the in-source comment
`# Sort by due date`. -/
theorem fallback_sort_noop_bug :
    ((generate_study_plan 3 envFallback 14).getPlan).map
        (fun p => (p.upcoming_assignments.map (fun e => (e.entryName, e.entryDue)), p.message)) =
      some ([("Late", some 200000), ("Early", some 100000)],
        ["Basic course information retrieved successfully",
         "Performance analysis completed",
         "Could not prioritize assignments: boom",
         "Study plan generated successfully"]) := by
  simp [generate_study_plan, envFallback, analyze_course_performance,
    analyzeCoursePerformanceT, stepGrades, stepAssignments, stepSubmissions,
    stepUpcomingCount, initReport, upcomingFilter, sortFallback_eq_self,
    PlanResult.getPlan, UpcomingEntry.entryName, UpcomingEntry.entryDue]

/-- C3: when assignment-group data is available, the study plan's
`upcoming_assignments` is exactly the prioritized list; the priority score of
an assignment with a due date is `max(0, whole days until due) / (weight + 0.1)`
where the weight defaults to 0 when the assignment has no group or its group
is not among the fetched ones; an assignment with no due date scores `⊤`
(the `float("inf")` sentinel); and the list is sorted by score ascending. -/
theorem studyPlan_priority_formula (course_id days_ahead : Int) (env : Env)
    (c : CourseInfo) (gs : List AssignmentGroup) (asgs : List Assignment)
    (hc : env.course = .ok c) (hg : env.groups = .ok gs)
    (ha : env.assignments = .ok asgs) :
    (∃ p, generate_study_plan course_id env days_ahead = .ok p ∧
       p.upcoming_assignments =
         (prioritizeUpcoming gs env.now (upcomingFilter env.now days_ahead asgs)).map
           UpcomingEntry.prioritized) ∧
    (∀ a : Assignment, ∀ d : Int, a.due_at = some d →
       priorityScore gs env.now a =
         (((max 0 ((d - env.now).fdiv 86400) : Int) : ℚ) /
            (weightFor gs a.assignment_group_id + 1 / 10) : ℚ)) ∧
    (∀ a : Assignment, a.due_at = none → priorityScore gs env.now a = ⊤) ∧
    (∀ a : Assignment, a.assignment_group_id = none →
       weightFor gs a.assignment_group_id = 0) ∧
    (∀ a : Assignment, (∀ g ∈ gs, (some g.id : Option Int) ≠ a.assignment_group_id) →
       weightFor gs a.assignment_group_id = 0) ∧
    List.Sorted prioRel (prioritizeUpcoming gs env.now (upcomingFilter env.now days_ahead asgs)) := by
  refine ⟨?_, ?_, ?_, ?_, ?_, ?_⟩
  · unfold generate_study_plan
    rw [hc, analyze_ok_of_course course_id env c hc, ha, hg]
    exact ⟨_, rfl, rfl⟩
  · intro a d hd
    simp [priorityScore, daysUntilDue, hd]
  · intro a hd
    simp [priorityScore, hd]
  · intro a hgid
    have h0 : gs.find? (fun g => some g.id == a.assignment_group_id) = none := by
      rw [List.find?_eq_none]
      intro g _
      simp [hgid]
    simp [weightFor, h0]
  · intro a hgid
    have : gs.find? (fun g => some g.id == a.assignment_group_id) = none := by
      rw [List.find?_eq_none]
      intro g hgmem
      simpa using hgid g hgmem
    simp [weightFor, this]
  · exact List.sorted_insertionSort prioRel _

theorem studyPlan_priority_formula_witness :
    envScenarioD.course = Except.ok ⟨some "Physics"⟩ ∧
    envScenarioD.groups = Except.ok [⟨10, "Heavy", some 50⟩] ∧
    envScenarioD.assignments = Except.ok [⟨1, "Weighted", some 172800, some 100, some 10⟩,
                                          ⟨2, "Unweighted", some 172800, some 100, none⟩] ∧
    (∃ p, generate_study_plan 9 envScenarioD 14 = .ok p ∧
       p.upcoming_assignments =
         (prioritizeUpcoming [⟨10, "Heavy", some 50⟩] envScenarioD.now
             (upcomingFilter envScenarioD.now 14
               [⟨1, "Weighted", some 172800, some 100, some 10⟩,
                ⟨2, "Unweighted", some 172800, some 100, none⟩])).map
           UpcomingEntry.prioritized) ∧
    (prioritizeUpcoming [⟨10, "Heavy", some 50⟩] 0
        [⟨1, "Weighted", some 172800, some 100, some 10⟩,
         ⟨2, "Unweighted", some 172800, some 100, none⟩]).map
        (fun p => (p.id, p.priority)) =
      [(1, (((2 : ℚ) / (50 + 1 / 10) : ℚ) : WithTop ℚ)),
       (2, (((2 : ℚ) / (0 + 1 / 10) : ℚ) : WithTop ℚ))] :=
  ⟨rfl, rfl, rfl,
   (studyPlan_priority_formula 9 14 envScenarioD ⟨some "Physics"⟩ _ _ rfl rfl rfl).1,
   by with_unfolding_all decide⟩

/-- C8 counterexample: two assignments with equal group weight (both 0, no
groups fetched) whose due dates are 26 and 25 hours away — distinct due dates
in the same whole-day bucket — keep their input order after prioritization:
the later-due assignment (id 1) sorts first even though the claim demands the
earlier-due one first, because both get priority `1 / 0.1 = 10` and the sort
is stable. -/
theorem priority_order_cex :
    (prioritizeUpcoming [] 0
        [⟨1, "LaterDue", some 93600, none, none⟩,
         ⟨2, "EarlierDue", some 90000, none, none⟩]).map
        (fun p => (p.id, p.due_date, p.weight, p.priority)) =
      [(1, some 93600, 0, ((10 : ℚ) : WithTop ℚ)),
       (2, some 90000, 0, ((10 : ℚ) : WithTop ℚ))] := by
  have hd : Int.fdiv 93600 86400 = 1 := by decide
  have hd2 : Int.fdiv 90000 86400 = 1 := by decide
  norm_num [prioritizeUpcoming, mkPrioritized, priorityScore, daysUntilDue, weightFor,
    groupNameFor, List.insertionSort, List.orderedInsert, prioRel, hd, hd2,
    sup_eq_max, max_def]

/-- C8 amended: prioritization is deterministic (a pure function of
assignments, groups and `now`); the output is sorted by priority score, and a
strictly smaller score means a strictly earlier position; for two assignments
with due dates and equal weight, a strictly smaller *clamped whole-day*
distance (not merely an earlier due date) gives a strictly smaller score; for
two assignments with the same due date at least one whole day away (clamped
day count positive), a strictly larger (non-negative) weight gives a strictly
smaller score.  Ties — equal due dates less than one day away, or distinct due
dates in the same whole-day bucket — keep input order. -/
theorem priority_order_amended (gs : List AssignmentGroup) (now : Int)
    (upcoming : List Assignment) :
    prioritizeUpcoming gs now upcoming = prioritizeUpcoming gs now upcoming ∧
    (∀ i j : Fin (prioritizeUpcoming gs now upcoming).length, i < j →
       ((prioritizeUpcoming gs now upcoming).get i).priority ≤
         ((prioritizeUpcoming gs now upcoming).get j).priority) ∧
    (∀ i j : Fin (prioritizeUpcoming gs now upcoming).length,
       ((prioritizeUpcoming gs now upcoming).get i).priority <
         ((prioritizeUpcoming gs now upcoming).get j).priority → i < j) ∧
    (∀ a b : Assignment, ∀ da db : Int,
       a.due_at = some da → b.due_at = some db →
       weightFor gs a.assignment_group_id = weightFor gs b.assignment_group_id →
       0 ≤ weightFor gs a.assignment_group_id →
       daysUntilDue now da < daysUntilDue now db →
       priorityScore gs now a < priorityScore gs now b) ∧
    (∀ a b : Assignment, ∀ dd : Int,
       a.due_at = some dd → b.due_at = some dd →
       0 < daysUntilDue now dd →
       0 ≤ weightFor gs b.assignment_group_id →
       weightFor gs b.assignment_group_id < weightFor gs a.assignment_group_id →
       priorityScore gs now a < priorityScore gs now b) := by
  have hsorted : List.Sorted prioRel (prioritizeUpcoming gs now upcoming) :=
    List.sorted_insertionSort prioRel _
  refine ⟨rfl, fun i j hij => hsorted.rel_get_of_lt hij, fun i j hlt => ?_, ?_, ?_⟩
  · by_contra hne
    push_neg at hne
    exact absurd (hsorted.rel_get_of_le hne) (not_le.mpr hlt)
  · intro a b da db hda hdb hw hw0 hdays
    have hpos : (0 : ℚ) < weightFor gs a.assignment_group_id + 1 / 10 := by linarith
    simp only [priorityScore, hda, hdb, ← hw]
    rw [WithTop.coe_lt_coe]
    rw [div_lt_div_iff_of_pos_right hpos]
    exact_mod_cast hdays
  · intro a b dd hda hdb hdpos hwb0 hwba
    have hda0 : (0 : ℚ) < (daysUntilDue now dd : ℚ) := by exact_mod_cast hdpos
    have hbpos : (0 : ℚ) < weightFor gs b.assignment_group_id + 1 / 10 := by linarith
    have hapos : (0 : ℚ) < weightFor gs a.assignment_group_id + 1 / 10 := by linarith
    simp only [priorityScore, hda, hdb]
    rw [WithTop.coe_lt_coe]
    rw [div_lt_div_iff_of_pos_left hda0 hapos hbpos]
    linarith

/-- C1 counterexample: when the submissions fetch fails (all other fetches
succeed), the assignment-groups endpoint is never called — the "remaining"
secondary fetches are not all attempted — and the fields `graded_assignments`
(and `total_assignments`) remain present in the result at their initialized,
defaulted value instead of being absent. -/
theorem analyze_secondary_fetch_cex :
    envSubsDown.submissions = Except.error "submissions down" ∧
    (analyzeCoursePerformanceT 4 envSubsDown).2.groupsAttempted = false ∧
    (analyzeCoursePerformanceT 4 envSubsDown).1.getReport.map
        (fun r => (r.graded_assignments, r.strengths, r.weaknesses)) =
      some (0, none, none) := by
  refine ⟨rfl, rfl, ?_⟩
  with_unfolding_all decide

/-- C1 amended: when the course fetch succeeds, `analyze_course_performance`
always returns a report (never the error object) and the grades, assignments
and submissions endpoints are always called; the groups endpoint is called
exactly when the submissions fetch succeeded with at least one graded
submission.  Each failing fetch appends its failure sentence to the narrative
and leaves its dependent *optional* fields absent (`none`), while the
initialized fields `current_grade`, `total_assignments`, `graded_assignments`
remain present at their defaults (null/0/0). -/
theorem analyze_secondary_fetch_amended (course_id : Int) (env : Env)
    (c : CourseInfo) (hc : env.course = .ok c) :
    ∃ r, analyze_course_performance course_id env = .ok r ∧
      ((analyzeCoursePerformanceT course_id env).2.gradesAttempted = true ∧
       (analyzeCoursePerformanceT course_id env).2.assignmentsAttempted = true ∧
       (analyzeCoursePerformanceT course_id env).2.submissionsAttempted = true ∧
       ((analyzeCoursePerformanceT course_id env).2.groupsAttempted = true ↔
         ∃ subs, env.submissions = .ok subs ∧ gradedSubmissions subs ≠ [])) ∧
      (∀ e, env.grades = .error e →
        r.current_grade = none ∧
        "Could not retrieve grade information: " ++ e ∈ r.message) ∧
      (∀ e, env.assignments = .error e →
        r.total_assignments = 0 ∧ r.assignments = none ∧
        r.upcoming_assignments_count = none ∧
        "Could not retrieve assignment information: " ++ e ∈ r.message) ∧
      (∀ e, env.submissions = .error e →
        r.graded_assignments = 0 ∧ r.average_score = none ∧ r.median_score = none ∧
        r.score_std_dev = none ∧ r.group_statistics = none ∧ r.strengths = none ∧
        r.weaknesses = none ∧
        "Could not retrieve submission information: " ++ e ∈ r.message) ∧
      (∀ e subs, env.submissions = .ok subs → env.groups = .error e →
        gradedSubmissions subs ≠ [] →
        r.group_statistics = none ∧ r.strengths = none ∧ r.weaknesses = none ∧
        "Could not complete detailed analysis: " ++ e ∈ r.message) := by
  refine ⟨_, analyze_ok_of_course course_id env c hc, ?_, ?_, ?_, ?_, ?_⟩
  · rw [analyzeT_course_ok course_id env c hc]
    exact ⟨rfl, rfl, rfl, stepSubmissions_snd_iff _ _ _ _⟩
  · intro e he
    refine ⟨?_, ?_⟩
    · simp [he, stepGrades, initReport]
    · apply stepSubmissions_message_mono
      apply stepAssignments_message_mono
      simp [he, stepGrades]
  · intro e he
    refine ⟨?_, ?_, ?_, ?_⟩
    · simp [he, stepAssignments, initReport]
    · simp [he, stepAssignments, initReport]
    · rw [stepSubmissions_upcoming_count_none _ _ _ _ (by simp [he, stepAssignments, initReport])]
      simp [he, stepAssignments, initReport]
    · apply stepSubmissions_message_mono
      simp [he, stepAssignments]
  · intro e he
    refine ⟨?_, ?_, ?_, ?_, ?_, ?_, ?_, ?_⟩
    · simp [he, stepSubmissions, initReport]
    · simp [he, stepSubmissions, initReport]
    · simp [he, stepSubmissions, initReport]
    · simp [he, stepSubmissions, initReport]
    · simp [he, stepSubmissions, initReport]
    · simp [he, stepSubmissions, initReport]
    · simp [he, stepSubmissions, initReport]
    · rw [he]
      show _ ∈ (stepSubmissions (.error e) _ _ _).1.message
      unfold stepSubmissions
      apply stepUpcomingCount_message_mono
      simp
  · intro e subs hse hge hne
    rw [hse, hge]
    show (stepSubmissions (.ok subs) (.error e) _ _).1.group_statistics = none ∧
      (stepSubmissions (.ok subs) (.error e) _ _).1.strengths = none ∧
      (stepSubmissions (.ok subs) (.error e) _ _).1.weaknesses = none ∧
      _ ∈ (stepSubmissions (.ok subs) (.error e) _ _).1.message
    unfold stepSubmissions
    simp only [hne, if_false]
    by_cases hn : numericGrades subs = [] <;>
      simp [hn, stepGroups, initReport]

theorem analyze_secondary_fetch_amended_witness :
    envGradesDown.course = Except.ok ⟨some "Music"⟩ ∧
    envGradesDown.grades = Except.error "grades down" ∧
    (∃ r, analyze_course_performance 12 envGradesDown = .ok r ∧
       r.current_grade = none ∧
       "Could not retrieve grade information: " ++ "grades down" ∈ r.message) ∧
    (analyzeCoursePerformanceT 12 envGradesDown).2.groupsAttempted = true := by
  refine ⟨rfl, rfl, ?_, ?_⟩
  · obtain ⟨r, hr, -, hgrades, -, -, -⟩ :=
      analyze_secondary_fetch_amended 12 envGradesDown ⟨some "Music"⟩ rfl
    obtain ⟨h1, h2⟩ := hgrades "grades down" rfl
    exact ⟨r, hr, h1, h2⟩
  · obtain ⟨-, hr, htr, -⟩ :=
      analyze_secondary_fetch_amended 12 envGradesDown ⟨some "Music"⟩ rfl
    exact htr.2.2.2.mpr ⟨_, rfl, by decide⟩

/-- C4 counterexample: the "Labs" group's only submission carries the non-null
numeric score 95 but a null `grade` field, so the code excludes it entirely:
"Labs" lands in neither `strengths` nor `weaknesses`, although under the
claim's definition of graded (non-null numeric score) the group has a graded
submission whose average 95 exceeds the claimed aggregate (95+60)/2 = 77.5 and
should be a strength. -/
theorem strengths_weaknesses_cex :
    ((Submission.mk none (some 95) (some ⟨some 1⟩)).score = some 95) ∧
    envNullGrade.groups = Except.ok [⟨1, "Labs", some 30⟩, ⟨2, "Exams", some 70⟩] ∧
    (analyze_course_performance 2 envNullGrade).getReport.map
        (fun r => (r.strengths, r.weaknesses)) =
      some (some [], some ["Exams"]) := by
  refine ⟨rfl, rfl, ?_⟩
  with_unfolding_all decide

/-- C4 amended: with the code's notion of graded (truthy `grade` field) and
scored (non-null numeric `score`), when submissions and groups are fetched and
at least one submission is graded: a group name never appears in both lists;
and — for distinct group names — a group with at least one graded-and-scored
submission is a strength exactly when the mean of those scores strictly
exceeds the aggregate mean over the scores of all graded submissions, and a
weakness exactly otherwise, while a group with no graded-and-scored submission
appears in neither list. -/
theorem strengths_weaknesses_amended (course_id : Int) (env : Env) (c : CourseInfo)
    (subs : List Submission) (gs : List AssignmentGroup)
    (hc : env.course = .ok c) (hs : env.submissions = .ok subs)
    (hgr : env.groups = .ok gs) (hne : gradedSubmissions subs ≠ []) :
    ∃ r, analyze_course_performance course_id env = .ok r ∧
      ∃ S W, r.strengths = some S ∧ r.weaknesses = some W ∧
        (∀ n, ¬ (n ∈ S ∧ n ∈ W)) ∧
        ((gs.map (fun g => g.name)).Nodup →
          ∀ g ∈ gs,
            (groupScores (gradedSubmissions subs) g.id = [] →
               g.name ∉ S ∧ g.name ∉ W) ∧
            (groupScores (gradedSubmissions subs) g.id ≠ [] →
               numericGrades subs ≠ [] →
               ((g.name ∈ S ↔
                  mean (numericGrades subs) <
                    mean (groupScores (gradedSubmissions subs) g.id)) ∧
                (g.name ∈ W ↔
                  ¬ mean (numericGrades subs) <
                    mean (groupScores (gradedSubmissions subs) g.id))))) := by
  refine ⟨_, analyze_ok_of_course course_id env c hc, ?_⟩
  rw [hs, hgr]
  obtain ⟨hS, hW, -⟩ := stepSubmissions_ok_sw subs gs env.now
    (stepAssignments env.assignments (stepGrades env.grades (initReport course_id c))) hne
  refine ⟨_, _, hS, hW, ?_, ?_⟩
  · intro n
    by_cases hn : numericGrades subs = []
    · simp [hn]
    · rw [if_neg hn, if_neg hn]
      exact classifyGroups_disjoint _ _ (groupStats_keys_nodup _ _) n
  · intro hnodup g hg
    by_cases hn : numericGrades subs = []
    · refine ⟨fun _ => ?_, fun _ hn' => absurd hn hn'⟩
      simp [hn]
    · rw [if_neg hn, if_neg hn]
      constructor
      · intro hsc
        constructor
        · intro hmem
          obtain ⟨st, hm, a, ha, hlt⟩ := (classifyGroups_mem_left _ _ _).mp hmem
          obtain ⟨g', hg', hname, hsc', hst⟩ := (mem_groupStats_iff _ _ hnodup _ _).mp hm
          obtain rfl := List.inj_on_of_nodup_map hnodup hg' hg hname
          exact hsc' hsc
        · intro hmem
          obtain ⟨st, hm, a, ha, hlt⟩ := (classifyGroups_mem_right _ _ _).mp hmem
          obtain ⟨g', hg', hname, hsc', hst⟩ := (mem_groupStats_iff _ _ hnodup _ _).mp hm
          obtain rfl := List.inj_on_of_nodup_map hnodup hg' hg hname
          exact hsc' hsc
      · intro hsc _
        constructor
        · constructor
          · intro hmem
            obtain ⟨st, hm, a, ha, hlt⟩ := (classifyGroups_mem_left _ _ _).mp hmem
            obtain ⟨g', hg', hname, hsc', hst⟩ := (mem_groupStats_iff _ _ hnodup _ _).mp hm
            obtain rfl := List.inj_on_of_nodup_map hnodup hg' hg hname
            subst hst
            injection ha with ha
            subst ha
            exact hlt
          · intro hlt
            refine (classifyGroups_mem_left _ _ _).mpr
              ⟨statOf (gradedSubmissions subs) g,
               (mem_groupStats_iff _ _ hnodup _ _).mpr ⟨g, hg, rfl, hsc, rfl⟩,
               mean (groupScores (gradedSubmissions subs) g.id), rfl, hlt⟩
        · constructor
          · intro hmem
            obtain ⟨st, hm, a, ha, hlt⟩ := (classifyGroups_mem_right _ _ _).mp hmem
            obtain ⟨g', hg', hname, hsc', hst⟩ := (mem_groupStats_iff _ _ hnodup _ _).mp hm
            obtain rfl := List.inj_on_of_nodup_map hnodup hg' hg hname
            subst hst
            injection ha with ha
            subst ha
            exact hlt
          · intro hlt
            refine (classifyGroups_mem_right _ _ _).mpr
              ⟨statOf (gradedSubmissions subs) g,
               (mem_groupStats_iff _ _ hnodup _ _).mpr ⟨g, hg, rfl, hsc, rfl⟩,
               mean (groupScores (gradedSubmissions subs) g.id), rfl, hlt⟩

theorem strengths_weaknesses_amended_witness :
    envScenarioA.course = Except.ok ⟨some "Biology 101"⟩ ∧
    envScenarioA.submissions = Except.ok [gradedSub "A" 70 1, gradedSub "A" 80 1,
      gradedSub "A" 90 1, gradedSub "C" 60 2] ∧
    envScenarioA.groups = Except.ok [⟨1, "Labs", some 30⟩, ⟨2, "Exams", some 70⟩] ∧
    (∃ r, analyze_course_performance 7 envScenarioA = .ok r ∧
       ∃ S W, r.strengths = some S ∧ r.weaknesses = some W ∧
         (∀ n, ¬ (n ∈ S ∧ n ∈ W))) ∧
    (analyze_course_performance 7 envScenarioA).getReport.map
        (fun r => (r.average_score, r.strengths, r.weaknesses)) =
      some (some 75, some ["Labs"], some ["Exams"]) := by
  refine ⟨rfl, rfl, rfl, ?_, by with_unfolding_all decide⟩
  obtain ⟨r, hr, S, W, hS, hW, hdisj, -⟩ :=
    strengths_weaknesses_amended 7 envScenarioA ⟨some "Biology 101"⟩ _ _ rfl rfl rfl
      (by decide)
  exact ⟨r, hr, S, W, hS, hW, hdisj⟩

/-- C6 counterexample: a submission carrying the non-null numeric score 95 but
a null `grade` field is not treated as graded — with it as the only
submission, the report counts 0 graded assignments and computes no aggregate
statistics, although the claim's notion of "graded" (non-null numeric score)
would demand an average of 95 over the single graded submission. -/
theorem graded_definition_cex :
    ((Submission.mk none (some 95) (some ⟨some 1⟩)).score = some 95) ∧
    envScoreNoGrade.submissions = Except.ok [Submission.mk none (some 95) (some ⟨some 1⟩)] ∧
    (analyze_course_performance 5 envScoreNoGrade).getReport.map
        (fun r => (r.graded_assignments, r.average_score, r.median_score, r.score_std_dev)) =
      some (0, none, none, none) := by
  refine ⟨rfl, rfl, ?_⟩
  with_unfolding_all decide

/-- C6 amended: the submissions treated as "graded" are exactly those whose
(string) `grade` field is present and non-empty; the aggregate average and
median are present exactly when at least one of those graded submissions also
carries a non-null numeric score, and are computed over exactly those scores;
the sample standard deviation is present exactly when there are at least two
such scores (absent, not zero, otherwise). -/
theorem graded_stats_amended (course_id : Int) (env : Env) (c : CourseInfo)
    (subs : List Submission) (hc : env.course = .ok c)
    (hs : env.submissions = .ok subs) :
    ∃ r, analyze_course_performance course_id env = .ok r ∧
      r.graded_assignments = (gradedSubmissions subs).length ∧
      gradedSubmissions subs = subs.filter gradeTruthy ∧
      numericGrades subs = (gradedSubmissions subs).filterMap (fun s => s.score) ∧
      r.average_score =
        (if numericGrades subs = [] then none else some (mean (numericGrades subs))) ∧
      r.median_score =
        (if numericGrades subs = [] then none else some (medianQ (numericGrades subs))) ∧
      r.score_std_dev =
        (if 1 < (numericGrades subs).length then some (sampleVariance (numericGrades subs))
         else none) := by
  refine ⟨_, analyze_ok_of_course course_id env c hc, ?_, rfl, rfl, ?_, ?_, ?_⟩
  · rw [hs]
    exact stepSubmissions_ok_graded subs env.groups env.now _
  · rw [hs]
    unfold stepSubmissions
    by_cases hg : gradedSubmissions subs = []
    · have hn : numericGrades subs = [] := by
        unfold numericGrades
        rw [hg]
        rfl
      simp [hg, hn, initReport]
    · by_cases hn : numericGrades subs = [] <;> simp [hg, hn, initReport]
  · rw [hs]
    unfold stepSubmissions
    by_cases hg : gradedSubmissions subs = []
    · have hn : numericGrades subs = [] := by
        unfold numericGrades
        rw [hg]
        rfl
      simp [hg, hn, initReport]
    · by_cases hn : numericGrades subs = [] <;> simp [hg, hn, initReport]
  · rw [hs]
    unfold stepSubmissions
    by_cases hg : gradedSubmissions subs = []
    · have hn : numericGrades subs = [] := by
        unfold numericGrades
        rw [hg]
        rfl
      simp [hg, hn, initReport]
    · by_cases hn : numericGrades subs = [] <;> simp [hg, hn, initReport]

theorem graded_stats_amended_witness :
    envTwoScores.course = Except.ok ⟨some "Statistics"⟩ ∧
    envTwoScores.submissions =
      Except.ok [⟨some "B", some 70, none⟩, ⟨some "B", some 80, none⟩] ∧
    (∃ r, analyze_course_performance 8 envTwoScores = .ok r ∧
       r.graded_assignments =
         (gradedSubmissions [⟨some "B", some 70, none⟩, ⟨some "B", some 80, none⟩]).length ∧
       gradedSubmissions [⟨some "B", some 70, none⟩, ⟨some "B", some 80, none⟩] =
         List.filter gradeTruthy [⟨some "B", some 70, none⟩, ⟨some "B", some 80, none⟩] ∧
       numericGrades [⟨some "B", some 70, none⟩, ⟨some "B", some 80, none⟩] =
         (gradedSubmissions [⟨some "B", some 70, none⟩, ⟨some "B", some 80, none⟩]).filterMap
           (fun s => s.score) ∧
       r.average_score =
         (if numericGrades [⟨some "B", some 70, none⟩, ⟨some "B", some 80, none⟩] = []
          then none
          else some (mean (numericGrades [⟨some "B", some 70, none⟩, ⟨some "B", some 80, none⟩]))) ∧
       r.median_score =
         (if numericGrades [⟨some "B", some 70, none⟩, ⟨some "B", some 80, none⟩] = []
          then none
          else some (medianQ (numericGrades [⟨some "B", some 70, none⟩, ⟨some "B", some 80, none⟩]))) ∧
       r.score_std_dev =
         (if 1 < (numericGrades [⟨some "B", some 70, none⟩, ⟨some "B", some 80, none⟩]).length
          then some (sampleVariance (numericGrades [⟨some "B", some 70, none⟩, ⟨some "B", some 80, none⟩]))
          else none)) ∧
    (analyze_course_performance 8 envTwoScores).getReport.map
        (fun r => (r.graded_assignments, r.average_score)) = some (2, some 75) :=
  ⟨rfl, rfl, graded_stats_amended 8 envTwoScores ⟨some "Statistics"⟩ _ rfl rfl,
   by with_unfolding_all decide⟩

/-- C7 counterexample: when the assignment fetch fails but the submissions
fetch succeeds with one graded submission, the report carries
`graded_assignments = 1 > 0 = total_assignments`. -/
theorem graded_le_total_cex :
    envMoreGradedThanTotal.assignments = Except.error "assignments down" ∧
    (analyze_course_performance 6 envMoreGradedThanTotal).getReport.map
        (fun r => (r.graded_assignments, r.total_assignments,
          decide (r.graded_assignments ≤ r.total_assignments))) =
      some (1, 0, false) := by
  refine ⟨rfl, ?_⟩
  with_unfolding_all decide

/-- C7 amended: `graded_assignments` counts a sublist of the fetched
submissions, so it never exceeds the number of submissions returned by the
submissions fetch (and is 0 when that fetch fails); it is not bounded by
`total_assignments`, which counts a different, independently fetched list. -/
theorem graded_le_submissions_amended (course_id : Int) (env : Env)
    (c : CourseInfo) (r : PerfReport) (hc : env.course = .ok c)
    (hr : analyze_course_performance course_id env = .ok r) :
    r.graded_assignments ≤
      (match env.submissions with
       | .ok l => l.length
       | .error _ => 0) := by
  rw [analyze_ok_of_course course_id env c hc] at hr
  injection hr with hr
  subst hr
  rcases env.submissions with e | subs
  · unfold stepSubmissions
    simp [initReport]
  · rw [stepSubmissions_ok_graded]
    unfold gradedSubmissions
    exact List.length_filter_le _ _

theorem graded_le_submissions_amended_witness :
    envTwoScores.course = Except.ok ⟨some "Statistics"⟩ ∧
    (∃ r, analyze_course_performance 8 envTwoScores = .ok r ∧
       r.graded_assignments ≤ 2) := by
  refine ⟨rfl, ⟨_, analyze_ok_of_course 8 envTwoScores ⟨some "Statistics"⟩ rfl, ?_⟩⟩
  have := graded_le_submissions_amended 8 envTwoScores ⟨some "Statistics"⟩ _ rfl
    (analyze_ok_of_course 8 envTwoScores ⟨some "Statistics"⟩ rfl)
  simpa [envTwoScores] using this

theorem priority_order_amended_witness :
    ((⟨1, "A", some 86400, none, none⟩ : Assignment).due_at = some 86400) ∧
    ((⟨2, "B", some 172800, none, none⟩ : Assignment).due_at = some 172800) ∧
    daysUntilDue 0 86400 < daysUntilDue 0 172800 ∧
    priorityScore [] 0 ⟨1, "A", some 86400, none, none⟩ <
      priorityScore [] 0 ⟨2, "B", some 172800, none, none⟩ :=
  ⟨rfl, rfl, by decide,
   (priority_order_amended [] 0 []).2.2.2.1
     ⟨1, "A", some 86400, none, none⟩ ⟨2, "B", some 172800, none, none⟩
     86400 172800 rfl rfl rfl (by norm_num [weightFor]) (by decide)⟩

end Glide
